import Mathlib

/-
  Verification of the model discovery and cache-refresh engine of the
  litellm-kamiwaza repository.  The engine polls cluster-management
  endpoints for deployments, normalizes them into routable model entries,
  filters them by an optional name pattern, merges static entries, and
  maintains a TTL cache.  The implementation module
  litellm_kamiwaza/kamiwaza_router.py is not present among the sources
  (only its tests and packaging are), so the definitions below are
  modelled from the specification, as indicated on each definition.
-/

namespace LitellmKamiwaza

/-- Status string that the cluster manager reports for a running
deployment or instance, as used by the test fixtures. -/
def deployedStatus : String := "DEPLOYED"

/-- Modelled from the spec: an Instance is one running replica within a
Deployment, with its own host and status (spec section 3).  The missing
implementation module is litellm_kamiwaza/kamiwaza_router.py. -/
structure ServingInstance where
  host_name : String
  status : String
deriving Repr, DecidableEq

/-- Modelled from the spec: a Deployment is a unit of a model serving
stack reported by a cluster-management endpoint, with a name, a model
identifier, a status, a load-balancer port and an ordered sequence of
Instances (spec section 3). -/
structure Deployment where
  name : String
  m_name : String
  status : String
  lb_port : Nat
  instances : List ServingInstance
deriving Repr, DecidableEq

/-- Modelled from the spec: a Routable Model Entry, the normalized unit
the core produces: a logical model name plus a backend descriptor with
the backend model path, a credential placeholder and an optional
synthesized base endpoint URL (spec section 3). -/
structure ModelEntry where
  model_name : String
  model : String
  api_key : String
  api_base : Option String
deriving Repr, DecidableEq

/-- Sentinel credential value meaning that the backend requires no
per-request API key (spec section 4.3, step 2). -/
def noKeySentinel : String := "no_key"

/-- Backend model path used for discovered entries, matching the value
observed in the test fixtures. -/
def backendModelPath : String := "openai/model"

/-- Base endpoint URL synthesized from the first deployed instance host
and the deployment load-balancer port (spec section 4.3, step 2). -/
def apiBaseOf (host : String) (port : Nat) : String :=
  "http://" ++ host ++ ":" ++ toString port ++ "/v1"

/-- Base endpoint URL in the https form allowed by the invariant of
spec section 3. -/
def apiBaseSecureOf (host : String) (port : Nat) : String :=
  "https://" ++ host ++ ":" ++ toString port ++ "/v1"

/-- Instances of a deployment whose status is deployed. -/
def deployedInstances (d : Deployment) : List ServingInstance :=
  d.instances.filter (fun i => i.status == deployedStatus)

/-- Modelled from the spec: for each usable Deployment (status deployed
and at least one deployed Instance) synthesize one Routable Model Entry
whose model name is the Deployment model identifier and whose base URL
is built from the first deployed instance host and the deployment
load-balancer port (spec section 4.3, step 2); unusable deployments
produce nothing. -/
def entryOfDeployment (d : Deployment) : Option ModelEntry :=
  if d.status == deployedStatus then
    match deployedInstances d with
    | [] => none
    | i :: _ =>
      some { model_name := d.m_name
             model := backendModelPath
             api_key := noKeySentinel
             api_base := some (apiBaseOf i.host_name d.lb_port) }
  else none

/-- Outcome of querying one Deployment Source Client: either the listed
deployments, or the SourceUnreachable failure (spec section 4.1). -/
inductive SourceResult where
  | ok (deployments : List Deployment)
  | unreachable
deriving Repr, DecidableEq

/-- Deployments contributed by one source result; an unreachable source
contributes zero deployments (spec section 4.3, step 1). -/
def deploymentsOf : SourceResult → List Deployment
  | .ok ds => ds
  | .unreachable => []

/-- Modelled from the spec: entries derived from all sources in
source-declaration order, each unreachable source contributing the empty
set (spec section 4.3, steps 1 to 3). -/
def discoveredEntries : List SourceResult → List ModelEntry
  | [] => []
  | s :: rest => (deploymentsOf s).filterMap entryOfDeployment ++ discoveredEntries rest

/-- Case-sensitive substring check, matching the Python expression
pat in s. -/
def containsSub (s pat : String) : Bool :=
  s.toList.tails.any (fun t => pat.toList.isPrefixOf t)

/-- Modelled from the spec: if the name pattern is non-empty, remove
every discovered entry whose model name does not contain the pattern as
a case-sensitive substring (spec section 4.3, step 4). -/
def applyPattern (pat : Option String) (discovered : List ModelEntry) : List ModelEntry :=
  match pat with
  | none => discovered
  | some p => if p = "" then discovered
              else discovered.filter (fun e => containsSub e.model_name p)

/-- Modelled from the spec: the Model List Builder concatenates all
source-derived entries in source order, applies the name-pattern filter
to discovered entries only, and appends static entries, which are exempt
from the filter (spec section 4.3, steps 3 and 4). -/
def build (sources : List SourceResult) (staticEntries : List ModelEntry)
    (pat : Option String) : List ModelEntry :=
  applyPattern pat (discoveredEntries sources) ++ staticEntries

/-- Error taxonomy of the core (spec section 7). -/
inductive RouterError where
  | configurationError
  | noModelsAvailable
  | sourceUnreachable
  | modelNotFound
deriving Repr, DecidableEq

/-- Construction-time configuration recognized by the Router Facade
(spec section 6). -/
structure RouterConfig where
  kamiwaza_api_url : Option String
  kamiwaza_uri_list : Option String
  model_list : Option (List ModelEntry)
  model_pattern : Option String
  cache_ttl_seconds : Option Int
deriving Repr, DecidableEq

/-- The constructed Router Facade state: the uniform list of per-endpoint
clients resolved at construction plus the retained options (spec
sections 6 and 9). -/
structure KamiwazaRouter where
  kamiwaza_clients : List String
  model_list : Option (List ModelEntry)
  model_pattern : Option String
  cache_ttl_seconds : Option Int
deriving Repr, DecidableEq

/-- Endpoint clients resolved once at construction: one client for the
single URL if given, plus one per comma-separated URL of the list option
(spec sections 6 and 9). -/
def clientsOfConfig (cfg : RouterConfig) : List String :=
  (match cfg.kamiwaza_api_url with | some u => [u] | none => []) ++
  (match cfg.kamiwaza_uri_list with | some s => s.splitOn "," | none => [])

/-- Modelled from the spec: Router Facade construction fails with
ConfigurationError when none of the single endpoint URL, the endpoint
URL list and the explicit model list is supplied, and otherwise succeeds
(spec sections 4.5 and 6). -/
def mkRouter (cfg : RouterConfig) : Except RouterError KamiwazaRouter :=
  if cfg.kamiwaza_api_url = none ∧ cfg.kamiwaza_uri_list = none ∧ cfg.model_list = none then
    .error .configurationError
  else
    .ok { kamiwaza_clients := clientsOfConfig cfg
          model_list := cfg.model_list
          model_pattern := cfg.model_pattern
          cache_ttl_seconds := cfg.cache_ttl_seconds }

/-- Modelled from the spec: one uncached model-list build as performed by
get_model_list.  If the built list is empty the explicit fallback model
list supplied at construction is returned when present, and otherwise
the call fails with NoModelsAvailable (spec section 4.3, step 5). -/
def getModelListOnce (r : KamiwazaRouter) (sources : List SourceResult)
    (staticEntries : List ModelEntry) : Except RouterError (List ModelEntry) :=
  if build sources staticEntries r.model_pattern = [] then
    match r.model_list with
    | some fb => .ok fb
    | none => .error .noModelsAvailable
  else .ok (build sources staticEntries r.model_pattern)

/-- Cache Record: the last built list, when any, plus its timestamp
(spec section 3). -/
structure CacheState where
  stored : Option (List ModelEntry)
  timestamp : Nat
deriving Repr, DecidableEq

/-- Modelled from the spec: the cache is FRESH when populated and the age
is below the TTL; a TTL of zero means always STALE, and a negative or
absent TTL means never refresh after the first successful build (spec
section 4.4). -/
def isFresh (ttl : Option Int) (st : CacheState) (now : Nat) : Bool :=
  match st.stored with
  | none => false
  | some _ =>
    match ttl with
    | none => true
    | some t => decide (t < 0) || decide (((now : Int) - (st.timestamp : Int)) < t)

/-- Result of one cache get: the returned value or error, the successor
cache state, and whether a Builder build was triggered. -/
structure CacheStep where
  result : Except RouterError (List ModelEntry)
  state : CacheState
  queried : Bool
deriving Repr

/-- Modelled from the spec: the Discovery Cache get operation.  While
FRESH and allowed to use the cache it serves the stored list with no
build; otherwise it triggers one build, stores the result on success,
and on a NoModelsAvailable or SourceUnreachable failure falls back to a
previously stored non-empty list when one exists, propagating the
failure only on the very first build (spec section 4.4). -/
def cacheGet (ttl : Option Int) (st : CacheState) (now : Nat) (useCache : Bool)
    (buildResult : Except RouterError (List ModelEntry)) : CacheStep :=
  if useCache && isFresh ttl st now then
    { result := .ok (st.stored.getD []), state := st, queried := false }
  else
    match buildResult with
    | .ok l => { result := .ok l, state := { stored := some l, timestamp := now }, queried := true }
    | .error e =>
      match st.stored with
      | some prev =>
        if (e = .noModelsAvailable ∨ e = .sourceUnreachable) ∧ prev ≠ [] then
          { result := .ok prev, state := st, queried := true }
        else
          { result := .error e, state := st, queried := true }
      | none => { result := .error e, state := st, queried := true }

/-- Syntactic validity of a synthesized base endpoint URL: the form
http or https, a non-empty host, a port and the /v1 suffix (spec
section 3 invariant). -/
def validApiBase (s : String) : Prop :=
  ∃ (h : String) (p : Nat), h ≠ "" ∧ (s = apiBaseOf h p ∨ s = apiBaseSecureOf h p)

/-- The per-entry invariant of spec section 3: a non-empty model name,
and either a syntactically valid synthesized base URL or a pure static
entry with an explicit backend model string and no synthesized URL. -/
def entryInvariant (e : ModelEntry) : Prop :=
  e.model_name ≠ "" ∧
    ((∃ s, e.api_base = some s ∧ validApiBase s) ∨ (e.api_base = none ∧ e.model ≠ ""))

/-- Sample instance on host1, mirroring the unit-test fixture. -/
def inst1 : ServingInstance := { host_name := "host1", status := "DEPLOYED" }

/-- Sample instance on host2, mirroring the unit-test fixture. -/
def inst2 : ServingInstance := { host_name := "host2", status := "DEPLOYED" }

/-- Sample deployment serving model-72b on host1 port 8000. -/
def deploy1 : Deployment :=
  { name := "deploy1", m_name := "model-72b", status := "DEPLOYED"
    lb_port := 8000, instances := [inst1] }

/-- Sample deployment serving model-32b on host2 port 8001. -/
def deploy2 : Deployment :=
  { name := "deploy2", m_name := "model-32b", status := "DEPLOYED"
    lb_port := 8001, instances := [inst2] }

/-- The entry synthesized for deploy1. -/
def entry72 : ModelEntry :=
  { model_name := "model-72b", model := backendModelPath
    api_key := noKeySentinel, api_base := some "http://host1:8000/v1" }

/-- Dummy fallback entry mirroring the unit-test fixture. -/
def dummyEntry : ModelEntry :=
  { model_name := "dummy", model := "dummy", api_key := noKeySentinel, api_base := none }

/-- Sample source results: one reachable source listing both sample
deployments. -/
def sampleSources : List SourceResult := [SourceResult.ok [deploy1, deploy2]]

/-- Sample router with a non-matching pattern and no fallback list. -/
def routerNoFallback : KamiwazaRouter :=
  { kamiwaza_clients := ["http://test-url"], model_list := none
    model_pattern := some "xyz", cache_ttl_seconds := none }

/-- Sample router with a non-matching pattern and a one-entry fallback
list, mirroring the unit-test fixture. -/
def routerWithFallback : KamiwazaRouter :=
  { kamiwaza_clients := ["http://test-url"], model_list := some [dummyEntry]
    model_pattern := some "xyz", cache_ttl_seconds := none }

/-- Sample router with the pattern 72b and no fallback list. -/
def router72 : KamiwazaRouter :=
  { kamiwaza_clients := ["http://test-url"], model_list := none
    model_pattern := some "72b", cache_ttl_seconds := none }

/-- Sample deployment of model-x on host1 port 8000, for the
load-balancing group scenario. -/
def deploy1x : Deployment :=
  { name := "deploy1", m_name := "model-x", status := "DEPLOYED"
    lb_port := 8000, instances := [inst1] }

/-- Sample deployment of model-x on host2 port 8001, for the
load-balancing group scenario. -/
def deploy2x : Deployment :=
  { name := "deploy2", m_name := "model-x", status := "DEPLOYED"
    lb_port := 8001, instances := [inst2] }

/-- Sample populated cache state holding one previously built list. -/
def populatedCache : CacheState := { stored := some [entry72], timestamp := 0 }

/-- Sample never-populated cache state. -/
def emptyCache : CacheState := { stored := none, timestamp := 0 }

/-- Entries of an appended source list are the appended entry lists. -/
theorem discoveredEntries_append (xs ys : List SourceResult) :
    discoveredEntries (xs ++ ys) = discoveredEntries xs ++ discoveredEntries ys := by
  induction xs with
  | nil => simp [discoveredEntries]
  | cons s rest ih => simp [discoveredEntries, ih]

/-- Claim C1: when the name pattern is non-empty, the build returns
exactly the discovered entries whose model name contains the pattern as
a case-sensitive substring, while static entries are always included
regardless of the pattern. -/
theorem build_filters_by_pattern (sources : List SourceResult)
    (staticEntries : List ModelEntry) (p : String) (hp : p ≠ "") (e : ModelEntry) :
    e ∈ build sources staticEntries (some p) ↔
      ((e ∈ discoveredEntries sources ∧ containsSub e.model_name p = true) ∨
        e ∈ staticEntries) := by
  unfold build applyPattern
  simp [hp, List.mem_append, List.mem_filter]

/-- Witness for claim C1 on the unit-test fixture: pattern 72b on the two
sample deployments. -/
theorem build_filters_by_pattern_witness :
    ("72b" : String) ≠ "" ∧
      (entry72 ∈ build sampleSources [] (some "72b") ↔
        ((entry72 ∈ discoveredEntries sampleSources ∧
            containsSub entry72.model_name "72b" = true) ∨
          entry72 ∈ ([] : List ModelEntry))) :=
  ⟨by decide, build_filters_by_pattern sampleSources [] "72b" (by decide) entry72⟩

/-- Claim C2: constructing the Router Facade fails with
ConfigurationError exactly when none of the single endpoint URL, the
endpoint URL list and the explicit model list is supplied. -/
theorem mkRouter_requires_some_config (cfg : RouterConfig) :
    mkRouter cfg = .error .configurationError ↔
      (cfg.kamiwaza_api_url = none ∧ cfg.kamiwaza_uri_list = none ∧
        cfg.model_list = none) := by
  unfold mkRouter
  split
  · simp_all
  · simp_all

/-- Claim C3: whenever a build produces the empty list, get_model_list
fails with NoModelsAvailable when no fallback model list was supplied at
construction, and returns exactly the fallback list when one was. -/
theorem empty_build_fallback_policy (r : KamiwazaRouter) (sources : List SourceResult)
    (staticEntries : List ModelEntry)
    (h : build sources staticEntries r.model_pattern = []) :
    (r.model_list = none →
        getModelListOnce r sources staticEntries = .error .noModelsAvailable) ∧
    (∀ fb, r.model_list = some fb →
        getModelListOnce r sources staticEntries = .ok fb) := by
  constructor
  · intro hn
    unfold getModelListOnce
    simp [h, hn]
  · intro fb hf
    unfold getModelListOnce
    simp [h, hf]

/-- Witness for claim C3 on the unit-test fixture: the pattern xyz
matches nothing, giving NoModelsAvailable without a fallback and the
dummy entry with one. -/
theorem empty_build_fallback_policy_witness :
    build sampleSources [] routerNoFallback.model_pattern = [] ∧
    getModelListOnce routerNoFallback sampleSources [] = .error .noModelsAvailable ∧
    getModelListOnce routerWithFallback sampleSources [] = .ok [dummyEntry] :=
  ⟨by decide,
   (empty_build_fallback_policy routerNoFallback sampleSources [] (by decide)).1 rfl,
   (empty_build_fallback_policy routerWithFallback sampleSources [] (by decide)).2
     [dummyEntry] rfl⟩

/-- Claim C4: an unreachable source does not abort the build and no
exception propagates to the caller of get_model_list: the result is the
same as without the failing source, so every model discovered from the
reachable sources is kept, and the call never surfaces
SourceUnreachable. -/
theorem unreachable_source_is_harmless (r : KamiwazaRouter)
    (pre post : List SourceResult) (staticEntries : List ModelEntry) :
    getModelListOnce r (pre ++ SourceResult.unreachable :: post) staticEntries =
      getModelListOnce r (pre ++ post) staticEntries ∧
    ∀ sources, getModelListOnce r sources staticEntries ≠
      .error .sourceUnreachable := by
  have hdisc : discoveredEntries (pre ++ SourceResult.unreachable :: post) =
      discoveredEntries (pre ++ post) := by
    rw [show (SourceResult.unreachable :: post) = [SourceResult.unreachable] ++ post from rfl]
    rw [discoveredEntries_append, discoveredEntries_append, discoveredEntries_append]
    simp [discoveredEntries, deploymentsOf]
  constructor
  · unfold getModelListOnce build
    rw [hdisc]
  · intro sources
    unfold getModelListOnce
    split
    · cases r.model_list <;> simp
    · simp

/-- Claim C10: construction with both a cluster endpoint URL and an
explicit model list succeeds, exposing one cluster client for that URL,
and construction yields a router exactly when at least one of the three
configuration inputs is supplied. -/
theorem mkRouter_accepts_url_with_model_list (u : String) (ml : List ModelEntry)
    (pat : Option String) (ttl : Option Int) :
    mkRouter { kamiwaza_api_url := some u, kamiwaza_uri_list := none
               model_list := some ml, model_pattern := pat
               cache_ttl_seconds := ttl } =
      .ok { kamiwaza_clients := [u], model_list := some ml, model_pattern := pat
            cache_ttl_seconds := ttl } ∧
    (∀ cfg : RouterConfig, (∃ r, mkRouter cfg = .ok r) ↔
      ¬(cfg.kamiwaza_api_url = none ∧ cfg.kamiwaza_uri_list = none ∧
          cfg.model_list = none)) := by
  constructor
  · unfold mkRouter clientsOfConfig
    simp
  · intro cfg
    unfold mkRouter
    split
    · simp_all
    · simp_all

/-- A zero TTL makes a cache whose timestamp does not exceed the clock
always STALE. -/
theorem isFresh_ttl_zero (st : CacheState) (now : Nat) (h : st.timestamp ≤ now) :
    isFresh (some 0) st now = false := by
  unfold isFresh
  cases st.stored with
  | none => rfl
  | some l =>
    simp only [Bool.or_eq_false_iff, decide_eq_false_iff_not, not_lt]
    constructor <;> omega

/-- A cache get that is not served from a FRESH cache triggers a build. -/
theorem cacheGet_queried_of_stale (ttl : Option Int) (st : CacheState) (now : Nat)
    (useCache : Bool) (b : Except RouterError (List ModelEntry))
    (h : (useCache && isFresh ttl st now) = false) :
    (cacheGet ttl st now useCache b).queried = true := by
  unfold cacheGet
  rw [h]
  cases b with
  | ok l => rfl
  | error e =>
    cases hst : st.stored with
    | some prev =>
      simp only [hst, Bool.false_eq_true, if_false]
      split <;> rfl
    | none => simp [hst]

/-- A cache get leaves the stored timestamp alone or sets it to now. -/
theorem cacheGet_timestamp_cases (ttl : Option Int) (st : CacheState) (now : Nat)
    (useCache : Bool) (b : Except RouterError (List ModelEntry)) :
    (cacheGet ttl st now useCache b).state.timestamp = st.timestamp ∨
    (cacheGet ttl st now useCache b).state.timestamp = now := by
  unfold cacheGet
  split
  · left; rfl
  · cases b with
    | ok l => right; rfl
    | error e =>
      cases hst : st.stored with
      | some prev =>
        simp only [hst]
        split <;> left <;> rfl
      | none => left; rfl

/-- Claim C5: with a TTL of zero the cache is always STALE, so each of
two consecutive cache-using get calls triggers a fresh Builder build. -/
theorem ttl_zero_always_queries (st : CacheState) (now1 now2 : Nat)
    (useCache1 useCache2 : Bool) (b1 b2 : Except RouterError (List ModelEntry))
    (h1 : st.timestamp ≤ now1) (h12 : now1 ≤ now2) :
    (cacheGet (some 0) st now1 useCache1 b1).queried = true ∧
    (cacheGet (some 0) (cacheGet (some 0) st now1 useCache1 b1).state
        now2 useCache2 b2).queried = true := by
  constructor
  · exact cacheGet_queried_of_stale _ st now1 useCache1 b1
      (by rw [isFresh_ttl_zero st now1 h1, Bool.and_false])
  · have hts : (cacheGet (some 0) st now1 useCache1 b1).state.timestamp ≤ now2 := by
      rcases cacheGet_timestamp_cases (some 0) st now1 useCache1 b1 with h | h <;> omega
    exact cacheGet_queried_of_stale _ _ now2 useCache2 b2
      (by rw [isFresh_ttl_zero _ now2 hts, Bool.and_false])

/-- Witness for claim C5: a populated cache with TTL zero still builds on
both of two consecutive cache-using calls. -/
theorem ttl_zero_always_queries_witness :
    populatedCache.timestamp ≤ 5 ∧ (5 : Nat) ≤ 7 ∧
    (cacheGet (some 0) populatedCache 5 true (.ok [entry72])).queried = true ∧
    (cacheGet (some 0) (cacheGet (some 0) populatedCache 5 true (.ok [entry72])).state
        7 true (.ok [entry72])).queried = true :=
  ⟨by decide, by decide,
   (ttl_zero_always_queries populatedCache 5 7 true true (.ok [entry72]) (.ok [entry72])
      (by decide) (by decide)).1,
   (ttl_zero_always_queries populatedCache 5 7 true true (.ok [entry72]) (.ok [entry72])
      (by decide) (by decide)).2⟩

/-- Claim C6: when a refresh fails with NoModelsAvailable or
SourceUnreachable, a cache holding a previously built non-empty list
returns that stored list unchanged instead of propagating the failure,
while on the very first build the failure propagates. -/
theorem refresh_failure_fallback_policy (ttl : Option Int) (st : CacheState)
    (now : Nat) (useCache : Bool) (e : RouterError)
    (he : e = .noModelsAvailable ∨ e = .sourceUnreachable) :
    (∀ prev, st.stored = some prev → prev ≠ [] →
      (cacheGet ttl st now useCache (.error e)).result = .ok prev ∧
      (cacheGet ttl st now useCache (.error e)).state = st) ∧
    (st.stored = none →
      cacheGet ttl st now useCache (.error e) =
        { result := .error e, state := st, queried := true }) := by
  constructor
  · intro prev hprev hne
    unfold cacheGet
    split
    · simp [hprev]
    · rcases he with he | he <;> subst he <;> simp [hprev, hne]
  · intro hnone
    have hfresh : isFresh ttl st now = false := by
      unfold isFresh
      rw [hnone]
    unfold cacheGet
    rw [hfresh, Bool.and_false]
    simp [hnone]

/-- Witness for claim C6: the populated sample cache swallows a
NoModelsAvailable refresh failure, while the never-populated cache
propagates it. -/
theorem refresh_failure_fallback_policy_witness :
    ((RouterError.noModelsAvailable = RouterError.noModelsAvailable ∨
        RouterError.noModelsAvailable = RouterError.sourceUnreachable) ∧
      (cacheGet (some 10) populatedCache 100 true
          (.error .noModelsAvailable)).result = .ok [entry72] ∧
      (cacheGet (some 10) populatedCache 100 true
          (.error .noModelsAvailable)).state = populatedCache) ∧
    cacheGet (some 10) emptyCache 100 true (.error .noModelsAvailable) =
      { result := .error .noModelsAvailable, state := emptyCache, queried := true } :=
  ⟨⟨Or.inl rfl,
    (refresh_failure_fallback_policy (some 10) populatedCache 100 true
        .noModelsAvailable (Or.inl rfl)).1 [entry72] rfl (by decide)⟩,
   (refresh_failure_fallback_policy (some 10) emptyCache 100 true
       .noModelsAvailable (Or.inl rfl)).2 rfl⟩

/-- Claim C7: a Deployment with deployed status and at least one
deployed Instance synthesizes exactly one entry whose model name is the
Deployment model identifier, whose base URL is built from the first
deployed instance host and the deployment load-balancer port, and whose
credential is the no-key sentinel. -/
theorem usable_deployment_yields_entry (d : Deployment) (i : ServingInstance)
    (rest : List ServingInstance) (hs : d.status = deployedStatus)
    (hi : deployedInstances d = i :: rest) :
    entryOfDeployment d =
      some { model_name := d.m_name, model := backendModelPath
             api_key := noKeySentinel
             api_base := some (apiBaseOf i.host_name d.lb_port) } ∧
    discoveredEntries [SourceResult.ok [d]] =
      [{ model_name := d.m_name, model := backendModelPath
         api_key := noKeySentinel
         api_base := some (apiBaseOf i.host_name d.lb_port) }] := by
  have h1 : entryOfDeployment d =
      some { model_name := d.m_name, model := backendModelPath
             api_key := noKeySentinel
             api_base := some (apiBaseOf i.host_name d.lb_port) } := by
    unfold entryOfDeployment
    rw [hs, hi]
    simp
  exact ⟨h1, by simp [discoveredEntries, deploymentsOf, h1]⟩

/-- Witness for claim C7 on the unit-test fixture: deploy1 yields the
entry for model-72b at host1 port 8000. -/
theorem usable_deployment_yields_entry_witness :
    deploy1.status = deployedStatus ∧
    deployedInstances deploy1 = inst1 :: [] ∧
    entryOfDeployment deploy1 =
      some { model_name := deploy1.m_name, model := backendModelPath
             api_key := noKeySentinel
             api_base := some (apiBaseOf inst1.host_name deploy1.lb_port) } ∧
    apiBaseOf inst1.host_name deploy1.lb_port = "http://host1:8000/v1" :=
  ⟨by decide, by decide,
   (usable_deployment_yields_entry deploy1 inst1 [] (by decide) (by decide)).1,
   by decide⟩

/-- Heads of colon-free prefixes of a list agree up to the first colon. -/
theorem eq_of_append_colon_eq : ∀ (a : List Char), ':' ∉ a → ∀ (b : List Char),
    ':' ∉ b → ∀ (x y : List Char), a ++ ':' :: x = b ++ ':' :: y → a = b := by
  intro a
  induction a with
  | nil =>
    intro _ b hb x y h
    cases b with
    | nil => rfl
    | cons c bs =>
      simp only [List.nil_append, List.cons_append, List.cons.injEq] at h
      exact absurd (by rw [← h.1]; exact List.mem_cons_self _ _) hb
  | cons c as ih =>
    intro ha b hb x y h
    cases b with
    | nil =>
      simp only [List.cons_append, List.nil_append, List.cons.injEq] at h
      exact absurd (by rw [h.1]; exact List.mem_cons_self _ _) ha
    | cons c2 bs =>
      simp only [List.cons_append, List.cons.injEq] at h
      have htail := ih (fun hm => ha (List.mem_cons_of_mem _ hm)) bs
        (fun hm => hb (List.mem_cons_of_mem _ hm)) x y h.2
      rw [h.1, htail]

/-- String append acts as list append on the underlying data. -/
theorem string_data_append (s t : String) : (s ++ t).data = s.data ++ t.data := rfl

/-- Synthesized base URLs for distinct colon-free hosts are distinct. -/
theorem apiBaseOf_ne_of_host_ne (h1 h2 : String) (p1 p2 : Nat) (hne : h1 ≠ h2)
    (hc1 : ':' ∉ h1.data) (hc2 : ':' ∉ h2.data) :
    apiBaseOf h1 p1 ≠ apiBaseOf h2 p2 := by
  intro heq
  apply hne
  have hd := congrArg String.data heq
  simp only [apiBaseOf, string_data_append, List.append_assoc] at hd
  have hd2 := List.append_cancel_left hd
  simp only [List.singleton_append] at hd2
  exact String.ext (eq_of_append_colon_eq h1.data hc1 h2.data hc2 _ _ hd2)

/-- Claim C8: two usable Deployments sharing a model identifier but with
different first-instance hosts both survive the build: the discovered
entries are two distinct entries with the shared model name and
different base URLs. -/
theorem duplicate_model_names_both_kept (d1 d2 : Deployment)
    (i1 i2 : ServingInstance) (r1 r2 : List ServingInstance)
    (h1s : d1.status = deployedStatus) (h1i : deployedInstances d1 = i1 :: r1)
    (h2s : d2.status = deployedStatus) (h2i : deployedInstances d2 = i2 :: r2)
    (hname : d1.m_name = d2.m_name) (hhost : i1.host_name ≠ i2.host_name)
    (hc1 : ':' ∉ i1.host_name.data) (hc2 : ':' ∉ i2.host_name.data) :
    ∃ e1 e2, discoveredEntries [SourceResult.ok [d1, d2]] = [e1, e2] ∧
      e1.model_name = e2.model_name ∧ e1.api_base ≠ e2.api_base := by
  have he1 : entryOfDeployment d1 =
      some { model_name := d1.m_name, model := backendModelPath
             api_key := noKeySentinel
             api_base := some (apiBaseOf i1.host_name d1.lb_port) } := by
    unfold entryOfDeployment
    rw [h1s, h1i]
    simp
  have he2 : entryOfDeployment d2 =
      some { model_name := d2.m_name, model := backendModelPath
             api_key := noKeySentinel
             api_base := some (apiBaseOf i2.host_name d2.lb_port) } := by
    unfold entryOfDeployment
    rw [h2s, h2i]
    simp
  refine ⟨{ model_name := d1.m_name, model := backendModelPath
            api_key := noKeySentinel
            api_base := some (apiBaseOf i1.host_name d1.lb_port) },
          { model_name := d2.m_name, model := backendModelPath
            api_key := noKeySentinel
            api_base := some (apiBaseOf i2.host_name d2.lb_port) }, ?_, ?_, ?_⟩
  · simp [discoveredEntries, deploymentsOf, he1, he2]
  · exact hname
  · intro h
    exact apiBaseOf_ne_of_host_ne i1.host_name i2.host_name d1.lb_port d2.lb_port
      hhost hc1 hc2 (Option.some.inj h)

/-- Witness for claim C8: the two sample model-x deployments on host1
and host2 both survive the build with distinct base URLs. -/
theorem duplicate_model_names_both_kept_witness :
    ∃ e1 e2, discoveredEntries [SourceResult.ok [deploy1x, deploy2x]] = [e1, e2] ∧
      e1.model_name = e2.model_name ∧ e1.api_base ≠ e2.api_base :=
  duplicate_model_names_both_kept deploy1x deploy2x inst1 inst2 [] []
    (by decide) (by decide) (by decide) (by decide) (by decide) (by decide)
    (by decide) (by decide)

/-- Every discovered entry comes from a deployment of some source. -/
theorem mem_discoveredEntries_elim (e : ModelEntry) :
    ∀ (sources : List SourceResult), e ∈ discoveredEntries sources →
      ∃ s ∈ sources, ∃ d ∈ deploymentsOf s, entryOfDeployment d = some e := by
  intro sources
  induction sources with
  | nil => intro h; simp [discoveredEntries] at h
  | cons s rest ih =>
    intro hmem
    rw [discoveredEntries] at hmem
    rcases List.mem_append.mp hmem with hm | hm
    · rcases List.mem_filterMap.mp hm with ⟨d, hd, hde⟩
      exact ⟨s, List.mem_cons_self _ _, d, hd, hde⟩
    · rcases ih hm with ⟨s2, hs2, d, hd, hde⟩
      exact ⟨s2, List.mem_cons_of_mem _ hs2, d, hd, hde⟩

/-- A synthesized entry carries the deployment model identifier and a
base URL built from the host of one of its instances. -/
theorem entryOfDeployment_shape (d : Deployment) (e : ModelEntry)
    (h : entryOfDeployment d = some e) :
    e.model_name = d.m_name ∧
      ∃ i ∈ d.instances, e.api_base = some (apiBaseOf i.host_name d.lb_port) := by
  unfold entryOfDeployment at h
  split at h
  · split at h
    · exact absurd h (by simp)
    · rename_i i tl heq
      have he := Option.some.inj h
      refine ⟨by rw [← he], i, ?_, by rw [← he]⟩
      have hmem : i ∈ deployedInstances d := by
        rw [heq]
        exact List.mem_cons_self _ _
      exact List.mem_of_mem_filter hmem
  · exact absurd h (by simp)

/-- Every built entry is a discovered entry or a static entry. -/
theorem mem_build_elim (e : ModelEntry) (sources : List SourceResult)
    (staticEntries : List ModelEntry) (pat : Option String)
    (h : e ∈ build sources staticEntries pat) :
    e ∈ discoveredEntries sources ∨ e ∈ staticEntries := by
  unfold build at h
  rcases List.mem_append.mp h with hm | hm
  · left
    cases pat with
    | none => exact hm
    | some p =>
      by_cases hp : p = ""
      · simpa [applyPattern, hp] using hm
      · simp only [applyPattern, hp, if_neg] at hm
        exact List.mem_of_mem_filter hm
  · right
    exact hm

/-- Claim C9: every entry of every list get_model_list returns has a
non-empty model name and either a syntactically valid synthesized base
URL of the form http or https host port /v1, or is a pure static entry
with an explicit backend model string and no synthesized URL, provided
every deployment carries a non-empty model identifier and non-empty
instance hosts and every static or fallback entry satisfies the
invariant itself. -/
theorem returned_entries_satisfy_invariant (r : KamiwazaRouter)
    (sources : List SourceResult) (staticEntries : List ModelEntry)
    (hdep : ∀ s ∈ sources, ∀ d ∈ deploymentsOf s,
      d.m_name ≠ "" ∧ ∀ i ∈ d.instances, i.host_name ≠ "")
    (hstatic : ∀ e ∈ staticEntries, entryInvariant e)
    (hfb : ∀ fb, r.model_list = some fb → ∀ e ∈ fb, entryInvariant e) :
    ∀ l, getModelListOnce r sources staticEntries = .ok l →
      ∀ e ∈ l, entryInvariant e := by
  intro l hl e he
  unfold getModelListOnce at hl
  split at hl
  · cases hml : r.model_list with
    | some fb =>
      rw [hml] at hl
      have hfl : fb = l := by
        injection hl
      exact hfb fb hml e (hfl ▸ he)
    | none =>
      rw [hml] at hl
      exact absurd hl (by simp)
  · have hbl : build sources staticEntries r.model_pattern = l := by
      injection hl
    rw [← hbl] at he
    rcases mem_build_elim e sources staticEntries r.model_pattern he with hm | hm
    · rcases mem_discoveredEntries_elim e sources hm with ⟨s, hs, d, hd, hde⟩
      rcases entryOfDeployment_shape d e hde with ⟨hmn, i, hi, hab⟩
      rcases hdep s hs d hd with ⟨hdm, hhost⟩
      refine ⟨by rw [hmn]; exact hdm, Or.inl ⟨apiBaseOf i.host_name d.lb_port, hab,
        i.host_name, d.lb_port, hhost i hi, Or.inl rfl⟩⟩
    · exact hstatic e hm

/-- Witness for claim C9 on the unit-test fixture: the entry returned for
the pattern 72b satisfies the invariant. -/
theorem returned_entries_satisfy_invariant_witness : entryInvariant entry72 :=
  returned_entries_satisfy_invariant router72 sampleSources []
    (by decide) (by simp) (fun fb h => nomatch h) [entry72] rfl entry72
    (List.mem_cons_self _ _)

end LitellmKamiwaza
